import Mathlib

-- Verification of the create-unstack scaffolding tool (src/index.ts).
-- The file shallowly embeds the tool's pure core: CLI flag resolution, the
-- cross-feature correction, project-name validation, manifest derivation
-- (every generator function with its exact template text), and the control
-- flow of the emission phase.  Randomness (node:crypto randomUUID) is
-- modelled by an explicit supply of tokens, one per call, in call order.
-- The primary embedding follows the first generator in src/index.ts; the
-- second historical generator in the same file (after the document
-- separator) is embedded in namespace V2 where a claim depends on it.

/-- FeatureSet: the record of boolean feature toggles assembled in main from
CLI flags or the multiselect prompt (src/index.ts lines 52-86). -/
structure Features where
  db : Bool
  auth : Bool
  reactScan : Bool
deriving DecidableEq, Repr

/-- Cross-feature correction step (src/index.ts lines 88-96): if auth is
selected without db, db is enabled automatically. -/
def resolveFeatures (features : Features) : Features :=
  if features.auth && !features.db then { features with db := true } else features

/-- Parsed CLI values (src/index.ts lines 11-18): each boolean option is
either present (some) or absent (none), as produced by node:util parseArgs. -/
structure CliValues where
  db : Option Bool
  auth : Option Bool
  reactScan : Option Bool
  yes : Option Bool
deriving DecidableEq, Repr

/-- Initial feature set from flags (src/index.ts lines 52-56):
each member takes its flag value or false if unset (the ?? false default). -/
def initialFeatures (v : CliValues) : Features :=
  { db := v.db.getD false
    auth := v.auth.getD false
    reactScan := v.reactScan.getD false }

/-- Final feature selection (src/index.ts lines 52-86).  With --yes the
flag-derived features stand; otherwise the multiselect answers (possibly
undefined, defaulted to the empty list) replace them wholesale. -/
def selectFeatures (v : CliValues) (selectedFeatures : Option (List String)) : Features :=
  if v.yes.getD false then
    initialFeatures v
  else
    let featuresArray := selectedFeatures.getD []
    { db := featuresArray.contains "db"
      auth := featuresArray.contains "auth"
      reactScan := featuresArray.contains "reactScan" }

/-- Character class of the project-name regex [a-z0-9-_]
(src/index.ts line 44). -/
def isProjectNameChar (c : Char) : Bool :=
  ('a' ≤ c && c ≤ 'z') || ('0' ≤ c && c ≤ '9') || c == '-' || c == '_'

/-- The test of the anchored regex ^[a-z0-9-_]+$ on a string: nonempty and
every character in the class (src/index.ts line 44). -/
def projectNamePattern (s : String) : Bool :=
  !(s == "") && s.data.all isProjectNameChar

/-- Project-name validation callback (src/index.ts lines 42-47): empty input
and input failing the regex test yield a message; valid input yields none. -/
def validate (value : String) : Option String :=
  if value == "" then
    some "Please enter a project name"
  else if !(projectNamePattern value) then
    some "Project name can only contain lowercase letters, numbers, hyphens, and underscores"
  else
    none

/-- Structured JSON values, for the generators whose artifact content is a
JavaScript object serialized with JSON.stringify(-, null, 2). -/
inductive Json where
  | str : String → Json
  | bool : Bool → Json
  | arr : List Json → Json
  | obj : List (String × Json) → Json

/-- Artifact content: plain template text, or a structured object serialized
to JSON at emission time. -/
inductive Content where
  | text : String → Content
  | json : Json → Content

/-- Fixed base dependency mapping of generatePackageJson
(src/index.ts lines 297-312). -/
def baseDependencies : List (String × String) :=
  [("next", "^15.4.0"),
   ("react", "18.3.1"),
   ("tailwindcss-animate", "^1.0.7"),
   ("react-dom", "18.3.1"),
   ("@heroui/system", "2.4.19"),
   ("@heroui/theme", "2.4.19"),
   ("@heroui/toast", "^2.0.13"),
   ("@heroui/button", "2.2.23"),
   ("next-themes", "^0.4.6"),
   ("class-variance-authority", "^0.7.1"),
   ("clsx", "^2.1.1"),
   ("lucide-react", "^0.292.0"),
   ("tailwind-merge", "^2.0.0"),
   ("ultracite", "^5.0.46")]

/-- Dependency mapping after the conditional per-flag insertions
(src/index.ts lines 314-324); keys are only added, never removed. -/
def dependencies (features : Features) : List (String × String) :=
  baseDependencies
    ++ (if features.db then [("mongodb", "^6.15.0")] else [])
    ++ (if features.auth then [("better-auth", "^1.2.12")] else [])
    ++ (if features.reactScan then [("react-scan", "^0.4.3")] else [])

/-- Dev-dependency mapping of generatePackageJson
(src/index.ts lines 326-334); unconditional. -/
def devDependencies : List (String × String) :=
  [("@types/react", "^18.3.1"),
   ("@types/react-dom", "^18.2.15"),
   ("@types/node", "^20.9.0"),
   ("tailwindcss", "4.1.11"),
   ("typescript", "^5.2.2"),
   ("@tailwindcss/postcss", "^4.1.11"),
   ("@biomejs/biome", "^2.0.6")]

/-- generatePackageJson (src/index.ts lines 293-351). -/
def generatePackageJson (projectName : String) (features : Features) : Json :=
  Json.obj
    [("name", Json.str projectName),
     ("version", Json.str "0.1.0"),
     ("type", Json.str "module"),
     ("private", Json.bool true),
     ("scripts", Json.obj
        [("dev", Json.str "next dev -\x2dturbopack"),
         ("build", Json.str "next build -\x2dturbopack"),
         ("start", Json.str "next start"),
         ("lint", Json.str "biome lint ."),
         ("format", Json.str "biome format -\x2dwrite .")]),
     ("dependencies", Json.obj ((dependencies features).map (fun p => (p.1, Json.str p.2)))),
     ("devDependencies", Json.obj (devDependencies.map (fun p => (p.1, Json.str p.2))))]

/-- generateTsConfig (src/index.ts lines 361-390). -/
def generateTsConfig : Json :=
  Json.obj
    [("compilerOptions", Json.obj
        [("target", Json.str "es2020"),
         ("lib", Json.arr [Json.str "dom", Json.str "dom.iterable", Json.str "es2020"]),
         ("allowJs", Json.bool true),
         ("skipLibCheck", Json.bool true),
         ("strict", Json.bool true),
         ("forceConsistentCasingInFileNames", Json.bool true),
         ("noEmit", Json.bool true),
         ("esModuleInterop", Json.bool true),
         ("module", Json.str "es2020"),
         ("moduleResolution", Json.str "node"),
         ("resolveJsonModule", Json.bool true),
         ("isolatedModules", Json.bool true),
         ("jsx", Json.str "preserve"),
         ("incremental", Json.bool true),
         ("plugins", Json.arr [Json.obj [("name", Json.str "next")]]),
         ("paths", Json.obj [("@/*", Json.arr [Json.str "./*"])])]),
     ("include", Json.arr
        [Json.str "next-env.d.ts", Json.str "**/*.ts", Json.str "**/*.tsx",
         Json.str ".next/types/**/*.ts"]),
     ("exclude", Json.arr [Json.str "node_modules"])]

/-- generateComponentsJson (src/index.ts lines 877-899). -/
def generateComponentsJson : Json :=
  Json.obj
    [("$schema", Json.str "https://ui.shadcn.com/schema.json"),
     ("style", Json.str "new-york"),
     ("rsc", Json.bool true),
     ("tsx", Json.bool true),
     ("tailwind", Json.obj
        [("config", Json.str "tailwind.config.js"),
         ("css", Json.str "styles/globals.css"),
         ("baseColor", Json.str "zinc"),
         ("cssVariables", Json.bool false),
         ("prefix", Json.str "")]),
     ("aliases", Json.obj
        [("components", Json.str "@/components"),
         ("utils", Json.str "@/lib/utils"),
         ("ui", Json.str "@/components/ui"),
         ("lib", Json.str "@/lib"),
         ("hooks", Json.str "@/hooks")]),
     ("iconLibrary", Json.str "lucide")]

/-- generateVsCodeSettings (src/index.ts lines 799-828). -/
def generateVsCodeSettings : Json :=
  Json.obj
    [("editor.defaultFormatter", Json.str "biomejs.biome"),
     ("editor.formatOnSave", Json.bool true),
     ("editor.codeActionsOnSave", Json.obj
        [("quickfix.biome", Json.str "explicit"),
         ("source.organizeImports.biome", Json.str "explicit")]),
     ("[json]", Json.obj [("editor.defaultFormatter", Json.str "biomejs.biome")]),
     ("[jsonc]", Json.obj [("editor.defaultFormatter", Json.str "biomejs.biome")]),
     ("[javascript]", Json.obj [("editor.defaultFormatter", Json.str "biomejs.biome")]),
     ("[typescript]", Json.obj [("editor.defaultFormatter", Json.str "biomejs.biome")]),
     ("[javascriptreact]", Json.obj [("editor.defaultFormatter", Json.str "biomejs.biome")]),
     ("[typescriptreact]", Json.obj [("editor.defaultFormatter", Json.str "biomejs.biome")]),
     ("typescript.tsdk", Json.str "node_modules/typescript/lib"),
     ("typescript.enablePromptUseWorkspaceTsdk", Json.bool true)]
def generateNextConfig : String :=
  "/** @type \x7bimport(\x27next\x27).NextConfig\x7d */\nconst nextConfig = \x7b\x7d;\n\nexport default nextConfig;\n"

def generateGitignore : String :=
  "# dependencies\n/node_modules\n/.pnp\n.pnp.js\n\n# testing\n/coverage\n\n# next.js\n/.next/\n"
    ++ "/out/\n\n# production\n/build\n\n# misc\n.DS_Store\n*.pem\n\n# debug\nnpm-debug.log*\nyarn-debug.log*\n"
    ++ "yarn-error.log*\n\n# local env files\n.env*.local\n.env\n\n# vercel\n.vercel\n\n# typescript\n"
    ++ "*.tsbuildinfo\nnext-env.d.ts\n"

def generateFonts : String :=
  "import \x7b Fira_Code as FontMono, Inter as FontSans \x7d from \"next/font/google\";\n\nexport const fontSans = FontSans(\x7b\n"
    ++ "    subsets: [\"latin\"],\n    variable: \"-\x2dfont-sans\",\n\x7d);\n\nexport const fontMono = FontMono(\x7b\n"
    ++ "    subsets: [\"latin\"],\n    variable: \"-\x2dfont-mono\",\n\x7d);\n"

def generateSite : String :=
  "export type SiteConfig = typeof siteConfig;\n\nexport const siteConfig = \x7b\n    name: \"Create Untraceable Stack\",\n"
    ++ "    description:\n        \"Get up and running fast with Untraceable Stack.\",\n\x7d;"

def generateHomePage : String :=
  "import \x7b Button \x7d from \x27@heroui/button\x27;\n\nexport default function Home() \x7b\n"
    ++ "  return (\n    <div className=\"flex min-h-screen flex-col items-center justify-center p-4\">\n"
    ++ "      <div className=\"max-w-3xl text-center\">\n        <h1 className=\"mb-4 text-4xl font-bold tracking-tight sm:text-5xl\">\n"
    ++ "          Welcome to <span className=\"text-primary\">Untraceable Stack</span>\n        </h1>\n"
    ++ "        <p className=\"mb-8 text-lg text-muted-foreground\">\n          A modern Next.js application with TailwindCSS, ShadCN UI, and more.\n"
    ++ "        </p>\n        <div className=\"flex flex-wrap justify-center gap-4\">\n          <Button variant=\"shadow\" color=\"primary\">\n"
    ++ "            <a href=\"https://heroui.org/docs\" target=\"_blank\" rel=\"noopener noreferrer\">\n"
    ++ "              Next.js Docs\n            </a>\n          </Button>\n          <Button variant=\"bordered\">\n"
    ++ "            <a href=\"https://ui.shadcn.com\" target=\"_blank\" rel=\"noopener noreferrer\">\n"
    ++ "              ShadCN UI\n            </a>\n          </Button>\n        </div>\n      </div>\n"
    ++ "    </div>\n  );\n\x7d\n"

def generateGlobalCss : String :=
  "@import \"tailwindcss\";\n@config \"../tailwind.config.js\";\n\n@layer base \x7b\n  :root \x7b\n"
    ++ "    -\x2dbackground: 0 0% 100%;\n    -\x2dforeground: 222.2 84% 4.9%;\n\n    -\x2dcard: 0 0% 100%;\n"
    ++ "    -\x2dcard-foreground: 222.2 84% 4.9%;\n \n    -\x2dpopover: 0 0% 100%;\n    -\x2dpopover-foreground: 222.2 84% 4.9%;\n"
    ++ " \n    -\x2dprimary: 222.2 47.4% 11.2%;\n    -\x2dprimary-foreground: 210 40% 98%;\n \n    -\x2dsecondary: 210 40% 96.1%;\n"
    ++ "    -\x2dsecondary-foreground: 222.2 47.4% 11.2%;\n \n    -\x2dmuted: 210 40% 96.1%;\n    -\x2dmuted-foreground: 215.4 16.3% 46.9%;\n"
    ++ " \n    -\x2daccent: 210 40% 96.1%;\n    -\x2daccent-foreground: 222.2 47.4% 11.2%;\n \n    -\x2ddestructive: 0 84.2% 60.2%;\n"
    ++ "    -\x2ddestructive-foreground: 210 40% 98%;\n\n    -\x2dborder: 214.3 31.8% 91.4%;\n    -\x2dinput: 214.3 31.8% 91.4%;\n"
    ++ "    -\x2dring: 222.2 84% 4.9%;\n \n    -\x2dradius: 0.5rem;\n  \x7d\n \n  .dark \x7b\n    -\x2dbackground: 222.2 84% 4.9%;\n"
    ++ "    -\x2dforeground: 210 40% 98%;\n \n    -\x2dcard: 222.2 84% 4.9%;\n    -\x2dcard-foreground: 210 40% 98%;\n"
    ++ " \n    -\x2dpopover: 222.2 84% 4.9%;\n    -\x2dpopover-foreground: 210 40% 98%;\n \n    -\x2dprimary: 210 40% 98%;\n"
    ++ "    -\x2dprimary-foreground: 222.2 47.4% 11.2%;\n \n    -\x2dsecondary: 217.2 32.6% 17.5%;\n"
    ++ "    -\x2dsecondary-foreground: 210 40% 98%;\n \n    -\x2dmuted: 217.2 32.6% 17.5%;\n    -\x2dmuted-foreground: 215 20.2% 65.1%;\n"
    ++ " \n    -\x2daccent: 217.2 32.6% 17.5%;\n    -\x2daccent-foreground: 210 40% 98%;\n \n    -\x2ddestructive: 0 62.8% 30.6%;\n"
    ++ "    -\x2ddestructive-foreground: 210 40% 98%;\n \n    -\x2dborder: 217.2 32.6% 17.5%;\n    -\x2dinput: 217.2 32.6% 17.5%;\n"
    ++ "    -\x2dring: 212.7 26.8% 83.9%;\n  \x7d\n\x7d\n \n@layer base \x7b\n  * \x7b\n    @apply border-border;\n"
    ++ "  \x7d\n  body \x7b\n    @apply bg-background text-foreground;\n  \x7d\n\x7d"

def generateUtils : String :=
  "import \x7b type ClassValue, clsx \x7d from \"clsx\";\nimport \x7b twMerge \x7d from \"tailwind-merge\";\n"
    ++ "\nexport function cn(...inputs: ClassValue[]) \x7b\n  return twMerge(clsx(inputs));\n\x7d\n"

def generateTailwindConfig : String :=
  "\nimport \x7b heroui \x7d from \"@heroui/theme\";\n/** @type \x7bimport(\x27tailwindcss\x27).Config\x7d */\n"
    ++ "export default \x7b\n    content: [\n        \"./components/**/*.\x7bjs,ts,jsx,tsx,mdx\x7d\",\n"
    ++ "        \"./app/**/*.\x7bjs,ts,jsx,tsx,mdx\x7d\",\n        \"./node_modules/@heroui/theme/dist/**/*.\x7bjs,ts,jsx,tsx\x7d\",\n"
    ++ "    ],\n    theme: \x7b\n        extend: \x7b\n            fontFamily: \x7b\n                sans: [\"var(-\x2dfont-sans)\"],\n"
    ++ "                mono: [\"var(-\x2dfont-mono)\"],\n            \x7d,\n            borderRadius: \x7b\n"
    ++ "                lg: \"var(-\x2dradius)\",\n                md: \"calc(var(-\x2dradius) - 2px)\",\n"
    ++ "                sm: \"calc(var(-\x2dradius) - 4px)\",\n            \x7d,\n            colors: \x7b\n"
    ++ "                border: \x7b\n                    DEFAULT: \"hsl(var(-\x2dborder))\",\n                    hover: \"hsl(var(-\x2dborder-hover))\",\n"
    ++ "                \x7d,\n            \x7d,\n        \x7d,\n    \x7d,\n    darkMode: \"class\",\n"
    ++ "    plugins: [heroui(), require(\"tailwindcss-animate\")],\n\x7d;\n"

def generatePostcssConfig : String :=
  "export default \x7b\n  plugins: \x7b\n  \"@tailwindcss/postcss\": \x7b\x7d\n  \x7d,\n\x7d"

def generateBiomeConfig : String :=
  "\x7b\n  \"$schema\": \"https://biomejs.dev/schemas/2.0.6/schema.json\",\n  \"extends\": [\"ultracite\"],\n"
    ++ "  \"linter\": \x7b\n    \"enabled\": true,\n    \"includes\": [\n      \"**/*.ts\",\n      \"**/*.tsx\",\n"
    ++ "      \"**/*.js\",\n      \"**/*.jsx\",\n      \"**/*.json\",\n      \"**/*.md\"\n    ],\n"
    ++ "    \"rules\": \x7b\n      \"style\": \x7b\n        \"noNonNullAssertion\": \"off\"\n      \x7d\n"
    ++ "    \x7d\n  \x7d,\n  \"files\": \x7b\n    \"experimentalScannerIgnores\": [\"node_modules\", \".git\", \".next\"]\n"
    ++ "  \x7d,\n  \"formatter\": \x7b\n    \"enabled\": true,\n    \"indentWidth\": 4,\n    \"indentStyle\": \"space\"\n"
    ++ "  \x7d,\n  \"vcs\": \x7b\n    \"enabled\": true,\n    \"clientKind\": \"git\",\n    \"useIgnoreFile\": true\n"
    ++ "  \x7d\n\x7d\n"

def generateMongoDbConfig : String :=
  "import \x7b MongoClient \x7d from \"mongodb\";\n\nif (!process.env.MONGODB_URI) \x7b\n    throw new Error(\x27Invalid/Missing environment variable: \"MONGODB_URI\"\x27);\n"
    ++ "\x7d\n\nconst uri = process.env.MONGODB_URI;\nconst options = \x7b\x7d;\n\nlet client: MongoClient;\n"
    ++ "\nif (process.env.NODE_ENV === \"development\") \x7b\n    let globalWithMongo = global as typeof globalThis & \x7b\n"
    ++ "        _mongoClient?: MongoClient;\n    \x7d;\n\n    if (!globalWithMongo._mongoClient) \x7b\n"
    ++ "        globalWithMongo._mongoClient = new MongoClient(uri, options);\n    \x7d\n    client = globalWithMongo._mongoClient;\n"
    ++ "\x7d else \x7b\n    client = new MongoClient(uri, options);\n\x7d\n\nexport \x7b client \x7d;"

def generateAuthConfig : String :=
  "import \x7b betterAuth \x7d from \"better-auth\";\nimport \x7b mongodbAdapter \x7d from \"better-auth/adapters/mongodb\";\n"
    ++ "import \x7b client \x7d from \"@/lib/db\";\n\nconst db = client.db(\"auth\");\n\nexport const auth = betterAuth(\x7b\n"
    ++ "    database: mongodbAdapter(db)\n\x7d);"

def generateAuthClient : String :=
  "import \x7b createAuthClient \x7d from \"better-auth/react\"\nexport const authClient = createAuthClient(\x7b\n"
    ++ "    baseURL: \"http://localhost:3000\"\n\x7d)"

def generateProviders : String :=
  "\"use client\";\n\nimport type \x7b ThemeProviderProps \x7d from \"next-themes\";\nimport \x7b ThemeProvider as NextThemesProvider \x7d from \"next-themes\";\n"
    ++ "import \x7b useRouter \x7d from \"next/navigation\";\nimport * as React from \"react\";\n\n"
    ++ "import \x7b HeroUIProvider \x7d from \"@heroui/system\";\nimport \x7b ToastProvider \x7d from \"@heroui/toast\";\n"
    ++ "\nexport interface ProvidersProps \x7b\n    children: React.ReactNode;\n    themeProps?: ThemeProviderProps;\n"
    ++ "\x7d\n\ndeclare module \"@react-types/shared\" \x7b\n    interface RouterConfig \x7b\n        routerOptions: NonNullable<\n"
    ++ "            Parameters<ReturnType<typeof useRouter>[\"push\"]>[1]\n        >;\n    \x7d\n\x7d\n"
    ++ "\nexport const Providers = (\x7b children, themeProps \x7d: ProvidersProps) => \x7b\n    const router = useRouter();\n"
    ++ "\n    return (\n        <HeroUIProvider navigate=\x7brouter.push\x7d>\n            <ToastProvider />\n"
    ++ "            <NextThemesProvider \x7b...themeProps\x7d>\n                \x7bchildren\x7d\n"
    ++ "            </NextThemesProvider>\n        </HeroUIProvider>\n    );\n\x7d;"

def generateAuthRoute : String :=
  "import \x7b auth \x7d from \"@/lib/auth\";\nimport \x7b toNextJsHandler \x7d from \"better-auth/next-js\";\n"
    ++ " \nexport const \x7b POST, GET \x7d = toNextJsHandler(auth);"

def generateEnvFile (projectName : String) (uuid : String) : String :=
  "MONGODB_URI=\"mongodb://localhost:27017/"
    ++ projectName
    ++ "\"\nBETTER_AUTH_SECRET=\""
    ++ uuid
    ++ "\"\nBETTER_AUTH_URL=\"http://localhost:3000\"\n"

def featuresSection (features : Features) : String :=
  "\n## Features\n\n- 🎨 **TailwindCSS v4** - Utility-first CSS framework\n- 🧩 **ShadCN UI** - Accessible and customizable component library\n"
    ++ "- 🔍 **Biome** - Code linting and formatting\n- 🔄 **Git** - Version control with initial commit\n"
    ++ (if features.db then "- 🗄️ **MongoDB** - Database with MongoDB\n" else "")
    ++ (if features.auth then "- 🔐 **Better-Auth** - Best Authentication system\n" else "")
    ++ (if features.reactScan then "- ⚡ **React Scan** - Performance analysis for React\n" else "")

def generateReadme (projectName : String) (features : Features) : String :=
  "# "
    ++ projectName
    ++ "\n\nThis project was bootstrapped with [create-untraceable-stack](https://github.com/TheUntraceable/create-untraceable-stack).\n"
    ++ "\n"
    ++ featuresSection features
    ++ "\n\n## Getting Started\n\nFirst, install the dependencies:\n\n```bash\nbun install\n# or\n"
    ++ "npm install\n# or\nyarn install\n```\n\nThen, run the development server:\n\n```bash\nbun dev\n"
    ++ "# or\nnpm run dev\n# or\nyarn dev\n```\n\nOpen [http://localhost:3000](http://localhost:3000) with your browser to see the result.\n"
    ++ "\n## Learn More\n\nTo learn more about the technologies used in this project:\n\n- [Next.js Documentation](https://nextjs.org/docs)\n"
    ++ "- [TailwindCSS Documentation](https://tailwindcss.com/docs)\n- [ShadCN UI Documentation](https://ui.shadcn.com)\n"
    ++ (if features.db then "- [MongoDB Documentation](https://mongodb.com/docs)\\n" else "")
    ++ "\n"
    ++ (if features.auth then "- [Better-Auth Documentation](https://better-auth.dev)\\n" else "")
    ++ "\n"
    ++ (if features.reactScan then "- [React Scan Documentation](https://github.com/aidenybai/react-scan)\\n" else "")
    ++ " // Updated link and text\n"

def generateLayout (features : Features) : String :=
  let reactScanComponent :=
    if features.reactScan then
      "<Head>\n                <script src=\"https://cdn.jsdelivr.net/npm/react-scan/dist/auto.global.js\" />\n"
        ++ "            </Head>"
    else ""
  "import \"@/styles/globals.css\";\nimport clsx from \"clsx\";\nimport \x7b Metadata, Viewport \x7d from \"next\";\n"
    ++ "\nimport \x7b fontSans \x7d from \"@/config/fonts\";\nimport \x7b siteConfig \x7d from \"@/config/site\";\n"
    ++ "\nimport \x7b Providers \x7d from \"./providers\";\nimport Head from \"next/head\";\n\nexport const metadata: Metadata = \x7b\n"
    ++ "    description: siteConfig.description,\n    icons: \x7b\n        icon: \"/favicon.ico\",\n"
    ++ "    \x7d,\n    title: \x7b\n        default: siteConfig.name,\n        template: `%s - $\x7bsiteConfig.name\x7d`,\n"
    ++ "    \x7d,\n\x7d;\n\nexport const viewport: Viewport = \x7b\n    themeColor: [\n        \x7b color: \"white\", media: \"(prefers-color-scheme: light)\" \x7d,\n"
    ++ "        \x7b color: \"black\", media: \"(prefers-color-scheme: dark)\" \x7d,\n    ],\n\x7d;\n"
    ++ "\nexport default function RootLayout(\x7b\n    children,\n\x7d: \x7b\n    children: React.ReactNode;\n"
    ++ "\x7d) \x7b\n    return (\n        <html suppressHydrationWarning lang=\"en\">\n            "
    ++ reactScanComponent
    ++ "\n            <body\n                className=\x7bclsx(\n                    \"min-h-screen bg-background font-sans antialiased\",\n"
    ++ "                    fontSans.variable,\n                )\x7d\n            >\n                <Providers\n"
    ++ "                    themeProps=\x7b\x7b attribute: \"class\", defaultTheme: \"dark\" \x7d\x7d\n"
    ++ "                >\n                    <div className=\"flex flex-col\">\n                        <main className=\"grow\">\x7bchildren\x7d</main>\n"
    ++ "                    </div>\n                </Providers>\n            </body>\n        </html>\n"
    ++ "    );\n\x7d"

namespace V2

def generateLayout : String :=
  "import \"@/styles/globals.css\";\n// This component must be the top-most import in this file!\n"
    ++ "import \x7b ReactScan \x7d from \"@/components/ReactScan\";\nimport clsx from \"clsx\";\nimport \x7b Metadata, Viewport \x7d from \"next\";\n"
    ++ "\nimport \x7b fontSans \x7d from \"@/config/fonts\";\nimport \x7b siteConfig \x7d from \"@/config/site\";\n"
    ++ "\nimport \x7b Providers \x7d from \"./providers\";\n\nexport const metadata: Metadata = \x7b\n"
    ++ "    description: siteConfig.description,\n    icons: \x7b\n        icon: \"/favicon.ico\",\n"
    ++ "    \x7d,\n    title: \x7b\n        default: siteConfig.name,\n        template: `%s - $\x7bsiteConfig.name\x7d`,\n"
    ++ "    \x7d,\n\x7d;\n\nexport const viewport: Viewport = \x7b\n    themeColor: [\n        \x7b color: \"white\", media: \"(prefers-color-scheme: light)\" \x7d,\n"
    ++ "        \x7b color: \"black\", media: \"(prefers-color-scheme: dark)\" \x7d,\n    ],\n\x7d;\n"
    ++ "\nexport default function RootLayout(\x7b\n    children,\n\x7d: \x7b\n    children: React.ReactNode;\n"
    ++ "\x7d) \x7b\n    return (\n        <html suppressHydrationWarning lang=\"en\">\n            <ReactScan />\n"
    ++ "            <head />\n            <body\n                className=\x7bclsx(\n                    \"min-h-screen bg-background font-sans antialiased\",\n"
    ++ "                    fontSans.variable,\n                )\x7d\n            >\n                <Providers\n"
    ++ "                    themeProps=\x7b\x7b attribute: \"class\", defaultTheme: \"dark\" \x7d\x7d\n"
    ++ "                >\n                    <div className=\"flex flex-col\">\n                        <main className=\"grow\">\x7bchildren\x7d</main>\n"
    ++ "                    </div>\n                </Providers>\n            </body>\n        </html>\n"
    ++ "    );\n\x7d"

def generateReactScanComponent : String :=
  "\"use client\";\n// react-scan must be imported before react\nimport \x7b scan \x7d from \"react-scan\";\n"
    ++ "import \x7b JSX, useEffect \x7d from \"react\";\n\nexport function ReactScan(): JSX.Element \x7b\n"
    ++ "  useEffect(() => \x7b\n    scan(\x7b\n      enabled: true,\n    \x7d);\n  \x7d, []);\n\n  return <></>;\n"
    ++ "\x7d\n"

end V2

/-- ArtifactManifest of the primary generator: the sequence of writeFile
calls in main (src/index.ts lines 114-252), as relative path paired with
content, in write order.  The uuid supply models successive randomUUID()
calls: generateEnvFile is called once for .env and once for .env.example,
consuming tokens 0 and 1 respectively. -/
def manifest (projectName : String) (features : Features) (uuid : Nat → String) :
    List (String × Content) :=
  [("package.json", Content.json (generatePackageJson projectName features)),
   ("next.config.js", Content.text generateNextConfig),
   ("tsconfig.json", Content.json generateTsConfig),
   (".env", Content.text (generateEnvFile projectName (uuid 0))),
   (".env.example", Content.text (generateEnvFile projectName (uuid 1))),
   (".gitignore", Content.text generateGitignore),
   ("README.md", Content.text (generateReadme projectName features)),
   ("config/site.ts", Content.text generateSite),
   ("config/fonts.ts", Content.text generateFonts),
   ("app/layout.tsx", Content.text (generateLayout features)),
   ("app/page.tsx", Content.text generateHomePage),
   ("styles/globals.css", Content.text generateGlobalCss),
   ("lib/utils.ts", Content.text generateUtils),
   ("tailwind.config.js", Content.text generateTailwindConfig),
   ("components.json", Content.json generateComponentsJson),
   ("app/providers.tsx", Content.text generateProviders),
   ("postcss.config.js", Content.text generatePostcssConfig),
   ("biome.json", Content.text generateBiomeConfig),
   (".vscode/settings.json", Content.json generateVsCodeSettings)]
  ++ (if features.db then [("lib/db.ts", Content.text generateMongoDbConfig)] else [])
  ++ (if features.auth then
        [("lib/auth.ts", Content.text generateAuthConfig),
         ("lib/auth-client.ts", Content.text generateAuthClient),
         ("app/api/auth/[...all]/route.ts", Content.text generateAuthRoute)]
      else [])

namespace V2

/-- Relative paths of the writeFile calls of the second generator's main
(src/index.ts lines 1049-1222), in write order.  components/ReactScan.tsx is
written unconditionally (lines 1118-1122), with generateReactScanComponent
as its content. -/
def scaffoldPaths (features : Features) : List String :=
  ["package.json", "next.config.js", "tsconfig.json", ".env", ".env.example",
   ".gitignore", "README.md", "config/site.ts", "config/fonts.ts",
   "app/layout.tsx", "app/page.tsx", "styles/globals.css",
   "components/ReactScan.tsx", "lib/utils.ts", "tailwind.config.js",
   "components.json", "app/providers.tsx", "postcss.config.js",
   "eslint.config.mjs", ".prettierrc", ".vscode/settings.json"]
  ++ (if features.db then ["lib/db.ts"] else [])
  ++ (if features.auth then
        ["lib/auth.ts", "lib/auth-client.ts", "app/api/auth/[...all]/route.ts"]
      else [])

end V2

/-- Observable outcome of one run of main past feature resolution
(src/index.ts lines 98-290): process exit status, whether the final success
outro is shown, the scaffold failure message if any, the artifact paths
actually written (left on disk), and whether the git phase ended in the
caught-failure warning. -/
structure RunOutcome where
  exitCode : Nat
  reportedSuccess : Bool
  scaffoldError : Option String
  writtenPaths : List String
  gitWarning : Bool

/-- Control flow of main after input resolution (src/index.ts lines 98-290).
mkdirOk models whether mkdir of the project root succeeds (catch at lines
106-109 exits 1).  writeFailAt = some i models the i-th writeFile call (in
manifest order) throwing errMsg: the catch at lines 255-258 stops the
spinner with the error detail and exits 1, leaving the earlier writes on
disk.  gitOk models the three execSync git commands (lines 262-271); their
failure is caught, only a warning, and main still reaches the success outro
with exit status 0. -/
def runMain (projectName : String) (features : Features) (uuid : Nat → String)
    (mkdirOk : Bool) (writeFailAt : Option Nat) (errMsg : String) (gitOk : Bool) :
    RunOutcome :=
  if !mkdirOk then
    { exitCode := 1, reportedSuccess := false, scaffoldError := none,
      writtenPaths := [], gitWarning := false }
  else
    let resolved := resolveFeatures features
    let artifacts := manifest projectName resolved uuid
    match writeFailAt with
    | some i =>
        if i < artifacts.length then
          { exitCode := 1, reportedSuccess := false,
            scaffoldError := some ("Failed to scaffold project: " ++ errMsg),
            writtenPaths := (artifacts.take i).map Prod.fst, gitWarning := false }
        else
          { exitCode := 0, reportedSuccess := true, scaffoldError := none,
            writtenPaths := artifacts.map Prod.fst, gitWarning := !gitOk }
    | none =>
        { exitCode := 0, reportedSuccess := true, scaffoldError := none,
          writtenPaths := artifacts.map Prod.fst, gitWarning := !gitOk }

/-- Boolean list-prefix test used by the substring test below. -/
def beginsWith : List Char → List Char → Bool
  | [], _ => true
  | _ :: _, [] => false
  | a :: as, b :: bs => a == b && beginsWith as bs

/-- Boolean contiguous-sublist test on character lists. -/
def hasSub (needle : List Char) : List Char → Bool
  | [] => beginsWith needle []
  | l@(_ :: rest) => beginsWith needle l || hasSub needle rest

/-- Boolean substring test on strings, for stating artifact-content facts. -/
def hasSubstr (needle hay : String) : Bool :=
  hasSub needle.data hay.data

/-- Concrete uuid supply with two distinct tokens, for exercising the two
randomUUID() calls of one invocation. -/
def uuidSupplyA : Nat → String :=
  fun n =>
    if n == 0 then "11111111-1111-4111-8111-111111111111"
    else "22222222-2222-4222-8222-222222222222"

set_option maxRecDepth 40000

/-- Helper: generateEnvFile is injective in the uuid argument for a fixed
project name, so two env files coincide exactly when their tokens do. -/
theorem generateEnvFile_uuid_inj (projectName a b : String)
    (h : generateEnvFile projectName a = generateEnvFile projectName b) : a = b := by
  unfold generateEnvFile at h
  have h2 := congrArg String.data h
  simp only [String.data_append] at h2
  exact String.ext (List.append_cancel_left (List.append_cancel_right h2))

/-- C1 (amended): the secret token is generated freshly per env-file
generation, not once per invocation: the .env artifact carries the first
randomUUID result and the .env.example artifact the second, and the two
artifacts carry the same BETTER_AUTH_SECRET value exactly when those two
independently generated tokens happen to coincide. -/
theorem c1_amended_env_secret_fresh_per_file (projectName : String) (features : Features)
    (uuid : Nat → String) :
    List.lookup ".env" (manifest projectName features uuid)
      = some (Content.text (generateEnvFile projectName (uuid 0)))
    ∧ List.lookup ".env.example" (manifest projectName features uuid)
      = some (Content.text (generateEnvFile projectName (uuid 1)))
    ∧ (generateEnvFile projectName (uuid 0) = generateEnvFile projectName (uuid 1)
        ↔ uuid 0 = uuid 1) :=
  ⟨rfl, rfl,
    ⟨fun h => generateEnvFile_uuid_inj projectName (uuid 0) (uuid 1) h,
     fun h => by rw [h]⟩⟩

/-- C1 (witness): the amended statement evaluated at a concrete invocation. -/
theorem c1_amended_env_secret_fresh_per_file_witness :
    List.lookup ".env" (manifest "my-app" ⟨false, false, false⟩ uuidSupplyA)
      = some (Content.text (generateEnvFile "my-app" (uuidSupplyA 0)))
    ∧ List.lookup ".env.example" (manifest "my-app" ⟨false, false, false⟩ uuidSupplyA)
      = some (Content.text (generateEnvFile "my-app" (uuidSupplyA 1)))
    ∧ (generateEnvFile "my-app" (uuidSupplyA 0) = generateEnvFile "my-app" (uuidSupplyA 1)
        ↔ uuidSupplyA 0 = uuidSupplyA 1) :=
  c1_amended_env_secret_fresh_per_file "my-app" ⟨false, false, false⟩ uuidSupplyA

/-- C1 (counterexample): at a concrete invocation whose two successive
randomUUID results differ, the emitted .env and .env.example contents differ,
so they do not contain the same BETTER_AUTH_SECRET value, refuting the claim
that the token is generated once per invocation and reused between the two
files. -/
theorem c1_counterexample_env_secrets_differ :
    List.lookup ".env" (manifest "my-app" ⟨false, false, false⟩ uuidSupplyA)
      = some (Content.text (generateEnvFile "my-app" "11111111-1111-4111-8111-111111111111"))
    ∧ List.lookup ".env.example" (manifest "my-app" ⟨false, false, false⟩ uuidSupplyA)
      = some (Content.text (generateEnvFile "my-app" "22222222-2222-4222-8222-222222222222"))
    ∧ generateEnvFile "my-app" "11111111-1111-4111-8111-111111111111"
      ≠ generateEnvFile "my-app" "22222222-2222-4222-8222-222222222222" :=
  ⟨rfl, rfl, by decide⟩

/-- C2 (amended): in the primary generator, when the performance-tool flag is
false, the derived manifest contains no instrumentation: no react-scan key in
the dependency mapping, no script tag and no ReactScan reference in the root
layout artifact, and no standalone instrumentation component artifact. -/
theorem c2_amended_v1_no_instrumentation (projectName : String) (features : Features)
    (uuid : Nat → String) (h : features.reactScan = false) :
    "react-scan" ∉ (dependencies features).map Prod.fst
    ∧ hasSubstr "<script" (generateLayout features) = false
    ∧ hasSubstr "ReactScan" (generateLayout features) = false
    ∧ "components/ReactScan.tsx" ∉ (manifest projectName features uuid).map Prod.fst := by
  obtain ⟨db, auth, rs⟩ := features
  cases rs
  · cases db <;> cases auth <;>
      exact ⟨by decide, by decide, by decide, by simp [manifest]⟩
  · simp at h

/-- C2 (witness): the amended statement evaluated at a concrete invocation
with the performance-tool flag false. -/
theorem c2_amended_v1_no_instrumentation_witness :
    "react-scan" ∉ (dependencies ⟨false, false, false⟩).map Prod.fst
    ∧ hasSubstr "<script" (generateLayout ⟨false, false, false⟩) = false
    ∧ hasSubstr "ReactScan" (generateLayout ⟨false, false, false⟩) = false
    ∧ "components/ReactScan.tsx"
        ∉ (manifest "my-app" ⟨false, false, false⟩ (fun _ => "s")).map Prod.fst :=
  c2_amended_v1_no_instrumentation "my-app" ⟨false, false, false⟩ (fun _ => "s") rfl

/-- C2 (counterexample): the second generator in src/index.ts emits the
standalone instrumentation component artifact components/ReactScan.tsx
unconditionally, its root layout artifact always renders the ReactScan
component, and the component content references react-scan, even with the
performance-tool flag false; this refutes the claim for that generator. -/
theorem c2_counterexample_v2_unconditional_instrumentation :
    "components/ReactScan.tsx" ∈ V2.scaffoldPaths ⟨false, false, false⟩
    ∧ hasSubstr "<ReactScan />" V2.generateLayout = true
    ∧ hasSubstr "react-scan" V2.generateReactScanComponent = true :=
  ⟨by decide, by decide, by decide⟩

/-- C3 (counterexample): with the db flag supplied but defaults mode off, an
interactive multiselect answer with zero selections yields a resolved
FeatureSet with database false: the supplied flag does not carry through in
interactive mode, refuting the claim. -/
theorem c3_counterexample_interactive_drops_db_flag :
    (CliValues.mk (some true) none none none).db = some true
    ∧ (resolveFeatures (selectFeatures (CliValues.mk (some true) none none none) (some []))).db
        = false :=
  ⟨rfl, rfl⟩

/-- C3 (amended): the db flag pre-selects the database feature only in
defaults mode: with the yes flag set, a supplied db flag yields a resolved
FeatureSet with database true; in interactive mode the multiselect answers
replace the flag-derived features wholesale, so the result is independent of
the db flag value. -/
theorem c3_amended_db_flag_defaults_mode_only (v : CliValues) (sel : Option (List String)) :
    (v.yes.getD false = true → v.db = some true →
      (resolveFeatures (selectFeatures v sel)).db = true)
    ∧ (v.yes.getD false = false →
        selectFeatures v sel = selectFeatures { v with db := some true } sel) := by
  constructor
  · intro hyes hdb
    simp [selectFeatures, hyes, initialFeatures, hdb, resolveFeatures]
  · intro hno
    simp [selectFeatures, hno]

/-- C3 (witness): the amended statement evaluated with the db and yes flags
both supplied. -/
theorem c3_amended_db_flag_defaults_mode_only_witness :
    (resolveFeatures (selectFeatures ⟨some true, none, none, some true⟩ none)).db = true :=
  (c3_amended_db_flag_defaults_mode_only ⟨some true, none, none, some true⟩ none).1 rfl rfl

/-- C4: the cross-feature correction establishes the invariant that
authentication implies database on the resolved FeatureSet, and the
correction step is idempotent. -/
theorem c4_cross_rule_invariant_idempotent (features : Features) :
    (features.auth = true → (resolveFeatures features).db = true)
    ∧ resolveFeatures (resolveFeatures features) = resolveFeatures features := by
  obtain ⟨db, auth, rs⟩ := features
  cases db <;> cases auth <;> cases rs <;> decide

/-- C4 (witness): the invariant and idempotence evaluated at the FeatureSet
with authentication true and database false. -/
theorem c4_cross_rule_invariant_idempotent_witness :
    (resolveFeatures ⟨false, true, false⟩).db = true
    ∧ resolveFeatures (resolveFeatures ⟨false, true, false⟩)
        = resolveFeatures ⟨false, true, false⟩ :=
  ⟨(c4_cross_rule_invariant_idempotent ⟨false, true, false⟩).1 rfl,
   (c4_cross_rule_invariant_idempotent ⟨false, true, false⟩).2⟩

/-- C5: on the manifest derived from the resolved FeatureSet, database true
implies the data-access artifact lib/db.ts is present, and authentication
true implies the auth-config, auth-client and catch-all route-handler
artifacts are present together with the data-access artifact, the latter
transitively through the cross-feature rule. -/
theorem c5_feature_artifacts_present (projectName : String) (features : Features)
    (uuid : Nat → String) :
    (features.db = true →
      "lib/db.ts" ∈ (manifest projectName (resolveFeatures features) uuid).map Prod.fst)
    ∧ (features.auth = true →
        "lib/auth.ts" ∈ (manifest projectName (resolveFeatures features) uuid).map Prod.fst
        ∧ "lib/auth-client.ts"
            ∈ (manifest projectName (resolveFeatures features) uuid).map Prod.fst
        ∧ "app/api/auth/[...all]/route.ts"
            ∈ (manifest projectName (resolveFeatures features) uuid).map Prod.fst
        ∧ "lib/db.ts" ∈ (manifest projectName (resolveFeatures features) uuid).map Prod.fst) := by
  obtain ⟨db, auth, rs⟩ := features
  cases db <;> cases auth <;> cases rs <;> constructor <;> intro h <;>
    simp_all [resolveFeatures, manifest]

/-- C5 (witness): the artifact-presence statement evaluated at a concrete
FeatureSet with both database and authentication enabled. -/
theorem c5_feature_artifacts_present_witness :
    ("lib/db.ts"
        ∈ (manifest "my-app" (resolveFeatures ⟨true, true, false⟩) (fun _ => "s")).map Prod.fst)
    ∧ ("lib/auth.ts"
        ∈ (manifest "my-app" (resolveFeatures ⟨true, true, false⟩) (fun _ => "s")).map Prod.fst
      ∧ "lib/auth-client.ts"
          ∈ (manifest "my-app" (resolveFeatures ⟨true, true, false⟩) (fun _ => "s")).map Prod.fst
      ∧ "app/api/auth/[...all]/route.ts"
          ∈ (manifest "my-app" (resolveFeatures ⟨true, true, false⟩) (fun _ => "s")).map Prod.fst
      ∧ "lib/db.ts"
          ∈ (manifest "my-app" (resolveFeatures ⟨true, true, false⟩) (fun _ => "s")).map Prod.fst) :=
  ⟨(c5_feature_artifacts_present "my-app" ⟨true, true, false⟩ (fun _ => "s")).1 rfl,
   (c5_feature_artifacts_present "my-app" ⟨true, true, false⟩ (fun _ => "s")).2 rfl⟩

/-- C6: manifest derivation is deterministic: two derivations with identical
project name and FeatureSet, and with the random tokens of the invocation
held fixed, produce identical manifests, path for path and byte for byte. -/
theorem c6_manifest_deterministic (projectName : String) (features : Features)
    (uuidA uuidB : Nat → String) (h0 : uuidA 0 = uuidB 0) (h1 : uuidA 1 = uuidB 1) :
    manifest projectName features uuidA = manifest projectName features uuidB := by
  simp only [manifest, h0, h1]

/-- C6 (witness): determinism evaluated at a concrete invocation. -/
theorem c6_manifest_deterministic_witness :
    manifest "my-app" ⟨false, false, false⟩ uuidSupplyA
      = manifest "my-app" ⟨false, false, false⟩ uuidSupplyA :=
  c6_manifest_deterministic "my-app" ⟨false, false, false⟩ uuidSupplyA uuidSupplyA rfl rfl

/-- Helper: a lookup that succeeds on the left list is unchanged by
appending entries on the right. -/
theorem lookup_append_left_isSome {α β : Type} [BEq α] (l1 l2 : List (α × β)) (k : α)
    (h : (List.lookup k l1).isSome = true) :
    List.lookup k (l1 ++ l2) = List.lookup k l1 := by
  induction l1 with
  | nil => simp [List.lookup] at h
  | cons p rest ih =>
    obtain ⟨a, b⟩ := p
    rw [List.cons_append]
    cases hk : k == a
    · simp [List.lookup, hk] at h ⊢
      exact ih h
    · simp [List.lookup, hk]

/-- C7: the dependency mapping is monotone in the feature flags: the all-false
FeatureSet yields exactly the fixed base mapping, every key/value pair of the
base mapping is included for every FeatureSet, and base keys are never
overwritten, since a lookup of any base key returns its base value unchanged. -/
theorem c7_dependencies_monotone (features : Features) :
    dependencies ⟨false, false, false⟩ = baseDependencies
    ∧ (∀ p, p ∈ baseDependencies → p ∈ dependencies features)
    ∧ (∀ k, (List.lookup k baseDependencies).isSome = true →
        List.lookup k (dependencies features) = List.lookup k baseDependencies) := by
  refine ⟨rfl, ?_, ?_⟩
  · intro p hp
    unfold dependencies
    exact List.mem_append_left _ (List.mem_append_left _ (List.mem_append_left _ hp))
  · intro k hk
    unfold dependencies
    have e1 := lookup_append_left_isSome baseDependencies
      (if features.db then [("mongodb", "^6.15.0")] else []) k hk
    have h1 : (List.lookup k (baseDependencies
        ++ (if features.db then [("mongodb", "^6.15.0")] else []))).isSome = true := by
      rw [e1]; exact hk
    have e2 := lookup_append_left_isSome _
      (if features.auth then [("better-auth", "^1.2.12")] else []) k h1
    have h2 : (List.lookup k ((baseDependencies
        ++ (if features.db then [("mongodb", "^6.15.0")] else []))
        ++ (if features.auth then [("better-auth", "^1.2.12")] else []))).isSome = true := by
      rw [e2]; exact h1
    have e3 := lookup_append_left_isSome _
      (if features.reactScan then [("react-scan", "^0.4.3")] else []) k h2
    rw [e3, e2, e1]

/-- C7 (witness): a base pair is present in the dependency mapping of the
all-true FeatureSet. -/
theorem c7_dependencies_monotone_witness :
    ("next", "^15.4.0") ∈ dependencies ⟨true, true, true⟩ :=
  (c7_dependencies_monotone ⟨true, true, true⟩).2.1 ("next", "^15.4.0") (by decide)

/-- C8: after all artifacts are written successfully, failure of the
version-control phase is non-fatal: the run exits with status zero and still
reports overall success, recording only a warning when the git commands
failed. -/
theorem c8_git_failure_nonfatal (projectName : String) (features : Features)
    (uuid : Nat → String) (errMsg : String) (gitOk : Bool) :
    (runMain projectName features uuid true none errMsg gitOk).exitCode = 0
    ∧ (runMain projectName features uuid true none errMsg gitOk).reportedSuccess = true
    ∧ (runMain projectName features uuid true none errMsg gitOk).gitWarning = !gitOk :=
  ⟨rfl, rfl, rfl⟩

/-- C9: a failure of any single artifact write aborts the remaining emission:
the run exits with status one, does not report success, reports the failure
message including the underlying error detail, and the artifacts written
before the failing write are exactly the ones left on disk, unchanged. -/
theorem c9_write_failure_aborts (projectName : String) (features : Features)
    (uuid : Nat → String) (errMsg : String) (gitOk : Bool) (i : Nat)
    (h : i < (manifest projectName (resolveFeatures features) uuid).length) :
    (runMain projectName features uuid true (some i) errMsg gitOk).exitCode = 1
    ∧ (runMain projectName features uuid true (some i) errMsg gitOk).reportedSuccess = false
    ∧ (runMain projectName features uuid true (some i) errMsg gitOk).scaffoldError
        = some ("Failed to scaffold project: " ++ errMsg)
    ∧ (runMain projectName features uuid true (some i) errMsg gitOk).writtenPaths
        = ((manifest projectName (resolveFeatures features) uuid).take i).map Prod.fst := by
  have e : runMain projectName features uuid true (some i) errMsg gitOk
      = if i < (manifest projectName (resolveFeatures features) uuid).length then
          { exitCode := 1, reportedSuccess := false,
            scaffoldError := some ("Failed to scaffold project: " ++ errMsg),
            writtenPaths := ((manifest projectName (resolveFeatures features) uuid).take i).map
              Prod.fst,
            gitWarning := false }
        else
          { exitCode := 0, reportedSuccess := true, scaffoldError := none,
            writtenPaths := (manifest projectName (resolveFeatures features) uuid).map Prod.fst,
            gitWarning := !gitOk } := rfl
  rw [e, if_pos h]
  exact ⟨rfl, rfl, rfl, rfl⟩

/-- C9 (witness): the abort behaviour evaluated with the fourth write failing
on a concrete invocation. -/
theorem c9_write_failure_aborts_witness :
    (runMain "my-app" ⟨false, false, false⟩ (fun _ => "s") true (some 3) "EACCES" true).exitCode = 1
    ∧ (runMain "my-app" ⟨false, false, false⟩ (fun _ => "s") true (some 3) "EACCES"
        true).reportedSuccess = false
    ∧ (runMain "my-app" ⟨false, false, false⟩ (fun _ => "s") true (some 3) "EACCES"
        true).scaffoldError = some ("Failed to scaffold project: " ++ "EACCES")
    ∧ (runMain "my-app" ⟨false, false, false⟩ (fun _ => "s") true (some 3) "EACCES"
        true).writtenPaths
        = ((manifest "my-app" (resolveFeatures ⟨false, false, false⟩) (fun _ => "s")).take 3).map
            Prod.fst :=
  c9_write_failure_aborts "my-app" ⟨false, false, false⟩ (fun _ => "s") "EACCES" true 3 (by decide)

/-- C10: project-name validation accepts exactly the strings matching the
anchored pattern: validation returns no message exactly when the regex test
succeeds, and the regex test succeeds exactly when the string is nonempty and
every character is a lowercase letter, digit, hyphen or underscore. -/
theorem c10_validate_accepts_exactly_pattern (s : String) :
    (validate s = none ↔ projectNamePattern s = true)
    ∧ (projectNamePattern s = true ↔ (s ≠ "" ∧ ∀ c ∈ s.data, isProjectNameChar c = true)) := by
  constructor
  · by_cases hs : s = ""
    · subst hs; simp [validate, projectNamePattern]
    · cases hp : projectNamePattern s
      · simp [validate, hs, hp]
      · simp [validate, hs, hp]
  · simp [projectNamePattern, List.all_eq_true, ne_eq]

/-- C10 (witness): validation accepts a concrete well-formed project name. -/
theorem c10_validate_accepts_exactly_pattern_witness : validate "my-app" = none :=
  ((c10_validate_accepts_exactly_pattern "my-app").1).mpr (by decide)
